import Mathlib

/-!
Shallow embedding of the core of the wireless pH sensor application
(`sensors.py`): the calibration dictionary (`readJson` and the three
calibration buttons), pH evaluation (`evalPH`) and the per-tick sample
ingestion (`updateFigs`).

Python floats are modelled as rationals; `round(x, 2)` is modelled by
`round2`, rounding half to even exactly as Python's `round`.  A serial
line is modelled as the list of its whitespace tokens, each token being
`some v` when `float` parses it to the value `v` and `none` when the
`float` conversion raises `ValueError`.  An exception escaping the tick
handler is modelled by `updateFigs` returning `none`; in that case the
application state is unchanged (the exception is raised before any
mutation).
-/

/-- Python `round` of a rational to the nearest integer, ties to even
(banker's rounding), as used by `round(x, ndigits)`. -/
def rint (x : ℚ) : ℤ :=
  let q := ⌊x⌋
  if x - q < 1/2 then q
  else if 1/2 < x - q then q + 1
  else if q % 2 = 0 then q else q + 1

/-- Python `round(x, 2)`. -/
def round2 (x : ℚ) : ℚ := (rint (x * 100) : ℚ) / 100

/-- `np.mean` over the values of a window. -/
def mean (l : List ℚ) : ℚ := l.sum / (l.length : ℚ)

/-- The calibration dictionary `self.ph_cal_dict` of `sensors.py` (the
constant `Equations` description string is omitted): voltages captured at
pH 7 / pH 4 / pH 10 in mV and the calibration temperature `T` in kelvin. -/
structure PhCalDict where
  ph7_cal : ℚ
  ph4_cal : ℚ
  ph10_cal : ℚ
  T : ℚ
  deriving DecidableEq

/-- The default dictionary created by `readJson` when `ph.json` is absent. -/
def defaultPhCalDict : PhCalDict :=
  { ph7_cal := 0, ph4_cal := 180, ph10_cal := -180, T := 300 }

/-- `ApplicationWindow.readJson`: the persisted file is modelled as
`Option PhCalDict` (`none` when `ph.json` does not exist).  The result is
the loaded dictionary together with the file contents written back
(`none` when nothing is written). -/
def readJson (file : Option PhCalDict) : PhCalDict × Option PhCalDict :=
  match file with
  | some d => (d, none)
  | none => (defaultPhCalDict, some defaultPhCalDict)

/-- The spec's `CalibrationConstants` record (field names of the spec). -/
structure CalibrationConstants where
  offset_mv : ℚ
  acid_mv : ℚ
  alkaline_mv : ℚ
  temperature_k : ℚ

/-- Renaming of the spec's field names onto the source's dictionary. -/
def toDict (c : CalibrationConstants) : PhCalDict :=
  { ph7_cal := c.offset_mv, ph4_cal := c.acid_mv,
    ph10_cal := c.alkaline_mv, T := c.temperature_k }

/-- The value computed by `ApplicationWindow.evalPH` before the final
`round` and clamp, as a function of the mean `v` of the voltage window
(`np.mean(self.ph_plot.y)`) and the mean `tc` of the Celsius temperature
window (`np.mean(self.temp_plot.y)`), which the source recomputes inline. -/
def evalPH_raw (v tc : ℚ) (d : PhCalDict) : ℚ :=
  let delta_mv := v - d.ph7_cal / d.T * (tc + 273.15)
  if delta_mv ≥ 0 then
    7 - delta_mv / ((d.ph4_cal - d.ph7_cal) / 3 / d.T * (tc + 273.15))
  else
    7 - delta_mv / ((d.ph7_cal - d.ph10_cal) / 3 / d.T * (tc + 273.15))

/-- `ApplicationWindow.evalPH`: the raw value, then `pH = round(pH, 2)`,
then the clamp `if pH <= 0: return 0 elif pH >= 14: return 14 else: return pH`. -/
def evalPH (v tc : ℚ) (d : PhCalDict) : ℚ :=
  let pH := round2 (evalPH_raw v tc d)
  if pH ≤ 0 then 0
  else if pH ≥ 14 then 14
  else pH

/-- The formula of spec section 4.2, written with the spec's own names.
Modelled from the spec for the refinement comparison with `evalPH_raw`. -/
def specEvaluate (voltage_diff_mv temperature_celsius : ℚ)
    (c : CalibrationConstants) : ℚ :=
  let t_k := temperature_celsius + 273.15
  let delta_mv := voltage_diff_mv - c.offset_mv / c.temperature_k * t_k
  if delta_mv ≥ 0 then
    7 - delta_mv / ((c.acid_mv - c.offset_mv) / 3 / c.temperature_k * t_k)
  else
    7 - delta_mv / ((c.offset_mv - c.alkaline_mv) / 3 / c.temperature_k * t_k)

/-- One push of a bounded plot window: `np.append(y, v)` followed by
`np.delete(y, 0)` (append the new value, drop the oldest). -/
def pushWindow (y : List ℚ) (v : ℚ) : List ℚ := (y ++ [v]).tail

/-- State of `ApplicationWindow` relevant to the ingestion pipeline:
calibration dictionary, the two bounded windows (`ph_plot.y`,
`temp_plot.y`), the unbounded full-trend buffer (`ph_full_plot.y` with
its x axis), and the two LCD displays. -/
structure AppState where
  ph_cal_dict : PhCalDict
  ph_y : List ℚ
  temp_y : List ℚ
  full_y : List ℚ
  full_x : List ℚ
  temp_lcd : ℚ
  ph_lcd : ℚ
  deriving DecidableEq

/-- The state right after construction: both bounded windows are
`np.zeros(10)`, the full-trend buffer starts as `np.zeros(10)` over
`np.arange(10)`, and the dictionary holds the values loaded by `readJson`
on a fresh run (the defaults). -/
def initState : AppState where
  ph_cal_dict := defaultPhCalDict
  ph_y := List.replicate 10 0
  temp_y := List.replicate 10 0
  full_y := List.replicate 10 0
  full_x := (List.range 10).map (fun n => (n : ℚ))
  temp_lcd := 0
  ph_lcd := 0

/-- `[float(val) for val in line.split()]`: `none` models the
`ValueError` raised by `float` on a non-numeric token. -/
def parseFloats : List (Option ℚ) → Option (List ℚ)
  | [] => some []
  | none :: _ => none
  | some v :: rest => (parseFloats rest).map (fun l => v :: l)

/-- A line that tokenizes into exactly four numeric values. -/
def isShape4 : List (Option ℚ) → Bool
  | [some _, some _, some _, some _] => true
  | _ => false

/-- `ApplicationWindow.updateFigs` on one raw line.  Returns `none` when
the handler raises (a non-numeric token makes the `float` comprehension
raise before any state is touched); otherwise returns the new state and
the list of records appended to the session log file, each record being
the six written fields in order. -/
def updateFigs (st : AppState) (line : List (Option ℚ)) :
    Option (AppState × List (List ℚ)) :=
  match parseFloats line with
  | none => none
  | some data =>
    match data with
    | [t, h, v1, v2] =>
      let temp_y1 := pushWindow st.temp_y t
      let data_pH := evalPH (mean st.ph_y) (mean temp_y1) st.ph_cal_dict
      let ph_y1 := pushWindow st.ph_y (v2 - v1)
      some
        ({ st with
            temp_lcd := t
            temp_y := temp_y1
            ph_lcd := data_pH
            ph_y := ph_y1
            full_y := st.full_y ++ [v2 - v1]
            full_x := st.full_x ++ [st.full_x.getLastD 0 + 1] },
          [[t, h, v1, v2, v2 - v1, data_pH]])
    | _ => some (st, [])

/-- One timer tick: the observable effect of `updateFigs`, collapsing a
raised exception to "state unchanged, nothing logged". -/
def tick (st : AppState) (line : List (Option ℚ)) : AppState × List (List ℚ) :=
  match updateFigs st line with
  | none => (st, [])
  | some r => r

/-- `ApplicationWindow.ph7CalButton`. -/
def ph7CalButton (st : AppState) : AppState :=
  { st with ph_cal_dict :=
      { st.ph_cal_dict with
          ph7_cal := round2 (mean st.ph_y)
          T := round2 (mean st.temp_y) + 273.15 } }

/-- `ApplicationWindow.ph4CalButton`. -/
def ph4CalButton (st : AppState) : AppState :=
  { st with ph_cal_dict := { st.ph_cal_dict with ph4_cal := round2 (mean st.ph_y) } }

/-- `ApplicationWindow.ph10CalButton`. -/
def ph10CalButton (st : AppState) : AppState :=
  { st with ph_cal_dict := { st.ph_cal_dict with ph10_cal := round2 (mean st.ph_y) } }

/-- The user-or-timer events that can mutate the modelled state. -/
inductive Event where
  | tickEv (line : List (Option ℚ))
  | cal7
  | cal4
  | cal10

/-- Effect of one event on the state. -/
def stepEvent (st : AppState) : Event → AppState
  | .tickEv line => (tick st line).1
  | .cal7 => ph7CalButton st
  | .cal4 => ph4CalButton st
  | .cal10 => ph10CalButton st

/-- State reached after a sequence of events. -/
def runEvents (st : AppState) (evs : List Event) : AppState :=
  evs.foldl stepEvent st

lemma parseFloats_eq_some {line : List (Option ℚ)} {data : List ℚ}
    (h : parseFloats line = some data) : line = data.map some := by
  induction line generalizing data with
  | nil =>
    simp [parseFloats] at h
    subst h
    rfl
  | cons a rest ih =>
    cases a with
    | none => simp [parseFloats] at h
    | some v =>
      simp only [parseFloats, Option.map_eq_some'] at h
      obtain ⟨l, hl, hd⟩ := h
      subst hd
      simp [ih hl]

lemma tick_reject (st : AppState) (line : List (Option ℚ))
    (h : isShape4 line = false) : tick st line = (st, []) := by
  cases hp : parseFloats line with
  | none => simp [tick, updateFigs, hp]
  | some data =>
    rcases data with _ | ⟨a, _ | ⟨b, _ | ⟨c, _ | ⟨d, _ | ⟨e, rest⟩⟩⟩⟩⟩
    · simp [tick, updateFigs, hp]
    · simp [tick, updateFigs, hp]
    · simp [tick, updateFigs, hp]
    · simp [tick, updateFigs, hp]
    · rw [parseFloats_eq_some hp] at h
      simp [isShape4] at h
    · simp [tick, updateFigs, hp]

lemma stepEvent_window_lengths (st : AppState) (e : Event) :
    (stepEvent st e).ph_y.length = st.ph_y.length ∧
      (stepEvent st e).temp_y.length = st.temp_y.length := by
  cases e with
  | tickEv line =>
    cases hp : parseFloats line with
    | none => simp [stepEvent, tick, updateFigs, hp]
    | some data =>
      rcases data with _ | ⟨a, _ | ⟨b, _ | ⟨c, _ | ⟨d, _ | ⟨e2, rest⟩⟩⟩⟩⟩ <;>
        simp [stepEvent, tick, updateFigs, hp, pushWindow]
  | cal7 => simp [stepEvent, ph7CalButton]
  | cal4 => simp [stepEvent, ph4CalButton]
  | cal10 => simp [stepEvent, ph10CalButton]

lemma runEvents_window_lengths (evs : List Event) : ∀ st : AppState,
    (runEvents st evs).ph_y.length = st.ph_y.length ∧
      (runEvents st evs).temp_y.length = st.temp_y.length := by
  induction evs with
  | nil => intro st; exact ⟨rfl, rfl⟩
  | cons e rest ih =>
    intro st
    have h1 := stepEvent_window_lengths st e
    have h2 := ih (stepEvent st e)
    exact ⟨h2.1.trans h1.1, h2.2.trans h1.2⟩

/-- Claim C1: `evalPH` implements the specified three-point calibration
formula (with `t_k = temperature_celsius + 273.15` and
`delta_mv = voltage_diff_mv - offset_mv / temperature_k * t_k`, the acid
branch when `delta_mv ≥ 0` and the alkaline branch otherwise), and at
`voltage_diff_mv = 50`, `temperature_celsius = 25` with the default
constants it returns 6.16. -/
theorem phC1_evaluate_formula :
    (∀ (v tc : ℚ) (c : CalibrationConstants),
        evalPH_raw v tc (toDict c) = specEvaluate v tc c) ∧
    evalPH 50 25 defaultPhCalDict = 6.16 := by
  constructor
  · intro v tc c
    rfl
  · norm_num [evalPH, evalPH_raw, round2, rint, defaultPhCalDict]

/-- Claim C2 (code bug): on the line `"25.0 60.0 abc 100.0"` the `float`
comprehension of `updateFigs` raises `ValueError` before the length check,
so the tick handler does not complete normally (modelled by `none`); the
raise happens before any mutation, so the observable state is unchanged
and nothing is logged. -/
theorem phC2_non_numeric_token_raises :
    updateFigs initState [some 25, some 60, none, some 100] = none ∧
    tick initState [some 25, some 60, none, some 100] = (initState, []) := by
  exact ⟨rfl, rfl⟩

/-- Claim C3 (code bug): with constants whose acid slope term is zero
(`acid_mv = offset_mv = 0`, `temperature_k = 300`) and inputs
`voltage_diff_mv = 50`, `temperature_celsius = 25`, the slope denominator
of `evalPH` evaluates to zero, yet `evalPH` has no guard and still
produces a value (in this rational embedding, where division by zero is
zero, the value 7) instead of failing with a `CalibrationError`. -/
theorem phC3_zero_slope_unguarded :
    (let c : PhCalDict := { ph7_cal := 0, ph4_cal := 0, ph10_cal := -180, T := 300 }
     (c.ph4_cal - c.ph7_cal) / 3 / c.T * (25 + 273.15) = 0 ∧
       evalPH 50 25 c = 7) := by
  refine ⟨by norm_num, ?_⟩
  norm_num [evalPH, evalPH_raw, round2, rint]

/-- Claim C4 counterexample: from the freshly constructed state, the
accepted line `25 60 0 50` logs the pH value 7, which is `evalPH`
computed over the old voltage window (all zeros); had the voltage window
been updated with the new difference 50 before evaluation, the value
would have been 6.91. -/
theorem phC4_counterexample :
    (tick initState [some 25, some 60, some 0, some 50]).2 =
      [[25, 60, 0, 50, 50, 7]] ∧
    evalPH (mean (pushWindow initState.ph_y 50))
        (mean (pushWindow initState.temp_y 25)) initState.ph_cal_dict = 6.91 ∧
    (7 : ℚ) ≠ 6.91 := by
  refine ⟨?_, ?_, by norm_num⟩
  · simp only [tick, updateFigs, parseFloats, Option.map_some', initState]
    norm_num [evalPH, evalPH_raw, round2, rint, mean, pushWindow,
      defaultPhCalDict, List.replicate, List.sum_cons]
  · norm_num [evalPH, evalPH_raw, round2, rint, mean, pushWindow, initState,
      defaultPhCalDict, List.replicate, List.sum_cons]

/-- Claim C4 as amended: on every accepted four-number line the
temperature window is pushed before the pH evaluation, but the
voltage-difference window is pushed only afterwards, so the pH displayed
and logged for the tick is `evalPH` over the previous voltage window
`st.ph_y`, excluding the new difference `v2 - v1` (while using the
updated temperature window). -/
theorem phC4_amended (st : AppState) (t hu v1 v2 : ℚ) :
    tick st [some t, some hu, some v1, some v2] =
      ({ st with
          temp_lcd := t
          temp_y := pushWindow st.temp_y t
          ph_lcd := evalPH (mean st.ph_y) (mean (pushWindow st.temp_y t)) st.ph_cal_dict
          ph_y := pushWindow st.ph_y (v2 - v1)
          full_y := st.full_y ++ [v2 - v1]
          full_x := st.full_x ++ [st.full_x.getLastD 0 + 1] },
        [[t, hu, v1, v2, v2 - v1,
          evalPH (mean st.ph_y) (mean (pushWindow st.temp_y t)) st.ph_cal_dict]]) := rfl

/-- Claim C5: `evalPH` first rounds the raw value to 2 decimal places and
then clamps, and the returned value always lies in the closed interval
`[0, 14]` (for every rational input, in particular for every input whose
slope terms are nonzero). -/
theorem phC5_round_then_clamp :
    ∀ (v tc : ℚ) (d : PhCalDict),
      evalPH v tc d =
        (if round2 (evalPH_raw v tc d) ≤ 0 then 0
         else if round2 (evalPH_raw v tc d) ≥ 14 then 14
         else round2 (evalPH_raw v tc d)) ∧
      0 ≤ evalPH v tc d ∧ evalPH v tc d ≤ 14 := by
  intro v tc d
  refine ⟨rfl, ?_, ?_⟩
  · simp only [evalPH]
    split_ifs with h1 h2
    · norm_num
    · norm_num
    · linarith
  · simp only [evalPH]
    split_ifs with h1 h2
    · norm_num
    · norm_num
    · linarith

/-- Claim C6: every accepted four-number line appends exactly one record
with the six fields temperature, humidity, reference voltage,
pH-electrode voltage, voltage difference (pH minus reference) and
evaluated pH, in that order; any other line shape appends no record and
leaves the state unchanged. -/
theorem phC6_record_per_accepted_line :
    (∀ (st : AppState) (t hu v1 v2 : ℚ),
        (tick st [some t, some hu, some v1, some v2]).2 =
          [[t, hu, v1, v2, v2 - v1,
            evalPH (mean st.ph_y) (mean (pushWindow st.temp_y t)) st.ph_cal_dict]]) ∧
    (∀ (st : AppState) (line : List (Option ℚ)),
        isShape4 line = false → tick st line = (st, [])) :=
  ⟨fun _ _ _ _ _ => rfl, fun st line h => tick_reject st line h⟩

/-- Witness for claim C6 at the concrete three-token line `1 2 3`. -/
theorem phC6_witness :
    tick initState [some 1, some 2, some 3] = (initState, []) :=
  phC6_record_per_accepted_line.2 initState [some 1, some 2, some 3] rfl

/-- Claim C7: a window push preserves the window length, a push on a
nonempty window appends the new value and drops the oldest entry (strict
FIFO), and after any sequence of events from the initial state both
bounded windows have length exactly 10 (hence never exceed 10). -/
theorem phC7_window_fifo_capacity :
    (∀ (y : List ℚ) (v : ℚ), (pushWindow y v).length = y.length) ∧
    (∀ (y : List ℚ) (v : ℚ), y ≠ [] → pushWindow y v = y.tail ++ [v]) ∧
    (∀ evs : List Event,
        (runEvents initState evs).ph_y.length = 10 ∧
          (runEvents initState evs).temp_y.length = 10) := by
  refine ⟨?_, ?_, ?_⟩
  · intro y v
    simp [pushWindow]
  · intro y v hy
    cases y with
    | nil => exact absurd rfl hy
    | cons a rest => simp [pushWindow]
  · intro evs
    have h := runEvents_window_lengths evs initState
    exact ⟨h.1.trans rfl, h.2.trans rfl⟩

/-- Witness for claim C7 at the concrete window `[1, 2]` and value 3. -/
theorem phC7_witness :
    (pushWindow [(1 : ℚ), 2] 3).length = ([(1 : ℚ), 2] : List ℚ).length ∧
    pushWindow [(1 : ℚ), 2] 3 = ([(1 : ℚ), 2] : List ℚ).tail ++ [3] :=
  ⟨phC7_window_fifo_capacity.1 [(1 : ℚ), 2] 3,
   phC7_window_fifo_capacity.2.1 [(1 : ℚ), 2] 3 (List.cons_ne_nil 1 [2])⟩

/-- Claim C8: loading with no persisted file yields the default constants
offset 0 mV, acid 180 mV, alkaline -180 mV, temperature 300 K, and
immediately writes back a file holding exactly these values. -/
theorem phC8_load_self_initializing :
    readJson none = (defaultPhCalDict, some defaultPhCalDict) ∧
    defaultPhCalDict = { ph7_cal := 0, ph4_cal := 180, ph10_cal := -180, T := 300 } :=
  ⟨rfl, rfl⟩

/-- A state whose temperature window mean is 0.125 °C, a rounding tie. -/
def c9TieState : AppState := { initState with ph_y := [10, 12, 11], temp_y := [1/8, 1/8, 1/8] }

/-- The state of the claim's concrete scenario for the pH-7 capture. -/
def c9ScenarioState : AppState := { initState with ph_y := [10, 12, 11], temp_y := [25, 25, 26] }

/-- Claim C9 counterexample: with the temperature window holding 0.125 °C
three times, `ph7CalButton` stores `round(mean, 2) + 273.15 = 273.27`
(Python rounds the tie 12.5 half-to-even down to 12), while the claim's
"mean converted to kelvin, rounded to 2 decimal places" is
`round2 (0.125 + 273.15) = 273.28`; the two orders of operations differ. -/
theorem phC9_counterexample :
    (ph7CalButton c9TieState).ph_cal_dict.T = 273.27 ∧
    round2 (mean [1/8, 1/8, 1/8] + 273.15) = 273.28 ∧
    (273.27 : ℚ) ≠ 273.28 := by
  refine ⟨?_, ?_, by norm_num⟩
  · norm_num [ph7CalButton, c9TieState, initState, round2, rint, mean, List.sum_cons]
  · norm_num [round2, rint, mean, List.sum_cons]

/-- Claim C9 as amended: `ph7CalButton` sets the pH-7 offset to the mean
of the voltage window rounded to 2 decimal places, and sets the
calibration temperature to the mean of the Celsius window rounded to 2
decimal places and then converted to kelvin (+273.15); on the windows
[10, 12, 11] and [25, 25, 26] this yields offset 11.0 and temperature
298.48 K, as the claim's concrete scenario states. -/
theorem phC9_capture_neutral_amended :
    (∀ st : AppState,
        (ph7CalButton st).ph_cal_dict.ph7_cal = round2 (mean st.ph_y) ∧
        (ph7CalButton st).ph_cal_dict.T = round2 (mean st.temp_y) + 273.15) ∧
    (ph7CalButton c9ScenarioState).ph_cal_dict.ph7_cal = 11 ∧
    (ph7CalButton c9ScenarioState).ph_cal_dict.T = 298.48 := by
  refine ⟨fun st => ⟨rfl, rfl⟩, ?_, ?_⟩
  · norm_num [ph7CalButton, c9ScenarioState, initState, round2, rint, mean, List.sum_cons]
  · norm_num [ph7CalButton, c9ScenarioState, initState, round2, rint, mean, List.sum_cons]

/-- Claim C10: both bounded windows are created holding exactly ten
zeros, they are nonempty in every reachable state (so the mean is always
over a nonempty window), and a pH-7 calibration capture or a pH
evaluation performed before the first accepted sample computes over the
zero placeholders (offset 0, temperature 273.15 K, pH 7) instead of
failing. -/
theorem phC10_windows_prefilled_nonzero :
    initState.ph_y = List.replicate 10 0 ∧
    initState.temp_y = List.replicate 10 0 ∧
    (∀ evs : List Event,
        0 < (runEvents initState evs).ph_y.length ∧
          0 < (runEvents initState evs).temp_y.length) ∧
    (ph7CalButton initState).ph_cal_dict.ph7_cal = 0 ∧
    (ph7CalButton initState).ph_cal_dict.T = 273.15 ∧
    evalPH (mean initState.ph_y) (mean initState.temp_y) initState.ph_cal_dict = 7 := by
  refine ⟨rfl, rfl, ?_, ?_, ?_, ?_⟩
  · intro evs
    have h := runEvents_window_lengths evs initState
    constructor
    · rw [h.1]
      norm_num [initState]
    · rw [h.2]
      norm_num [initState]
  · norm_num [ph7CalButton, initState, round2, rint, mean, List.sum_replicate]
  · norm_num [ph7CalButton, initState, round2, rint, mean, List.sum_replicate]
  · norm_num [evalPH, evalPH_raw, initState, defaultPhCalDict, round2, rint,
      mean, List.sum_replicate]
